import Mathlib

/-!
Verification of the fault-tolerant key-value service (KVServer layer).

The Go sources are embedded shallowly:

* Go maps (map[string]string, map[string]time.Time, map[int]chan ApplyResult)
  become association lists with unique keys, manipulated through alookup,
  ainsert and aerase, whose semantics match a Go map access, assignment and
  delete.
* The state machine fields of KVServer (uniqueId, commitIndex, tab,
  sessionMap, replyChan, maxRaftState, nextSnapshotIndex) become the
  structure KVState.
* One iteration of the apply loop for a command message becomes the
  function applyCommand; the registry manipulation inside submit becomes
  submitInstall; the handlers Get and Update become functions of the
  request plus oracle values for the raft calls (GetState, Start) and for
  the blocking channel receive.
* The json Encoder and Decoder of the standard library are external to the
  repository; they are modelled at token granularity: each Encode call
  emits one token of type JsonTok, each Decode call consumes one token and
  fails on a type mismatch or on end of input, exactly as the json stream
  decoder does on well-formed field granularity.
-/

namespace KVService

/-- Error codes of the wire protocol (common/kvserver.proto). -/
inductive ErrCode
  | WRONG_LEADER
  | OK
  | NO_KEY
  | INVALID_SESSION
  | INVALID_REQUEST_TYPE
  | INVALID_PASSWORD
deriving DecidableEq, Repr

/-- Request types of the wire protocol (common/kvserver.proto). -/
inductive RequestType
  | OPEN_SESSION
  | GET
  | PUT
  | APPEND
  | DELETE
deriving DecidableEq, Repr

/-- The command submitted to raft (raft.Op as used by KVServer). -/
structure Op where
  requestType : RequestType
  key : String
  value : String
  uuid : String
deriving DecidableEq, Repr

/-- ApplyResult carries the term of the applied log entry and, for
OpenSession, the session identifier. -/
structure ApplyResult where
  term : Int
  sessionId : String
deriving DecidableEq, Repr

/-- Model of a Go buffered channel of ApplyResult: capacity, buffered
values in send order, and whether close has been called. -/
structure Chan where
  cap : Nat
  buf : List ApplyResult
  closed : Bool
deriving DecidableEq, Repr

/-- Association-list lookup, the model of a Go map read m[k]. -/
def alookup {α β : Type} [BEq α] (m : List (α × β)) (k : α) : Option β :=
  (m.find? (fun p => p.1 == k)).map (fun p => p.2)

/-- Association-list insert, the model of a Go map assignment m[k] = v. -/
def ainsert {α β : Type} [BEq α] (m : List (α × β)) (k : α) (v : β) : List (α × β) :=
  (k, v) :: m.filter (fun p => !(p.1 == k))

/-- Association-list erase, the model of a Go delete(m, k). -/
def aerase {α β : Type} [BEq α] (m : List (α × β)) (k : α) : List (α × β) :=
  m.filter (fun p => !(p.1 == k))

/-- The fields of KVServer that the claims are about: the persistent state
machine (uniqueId, commitIndex, tab), the session registry, the pending
reply-slot registry replyChan, and the snapshot-threshold configuration. -/
structure KVState where
  uniqueId : Int
  commitIndex : Int
  tab : List (String × String)
  sessionMap : List (String × Nat)
  replyChan : List (Int × Chan)
  maxRaftState : Int
  nextSnapshotIndex : Int
deriving DecidableEq, Repr

/-- One token of the json stream used by the snapshot: each call of
Encoder.Encode in makeSnapshot emits one token, each call of
Decoder.Decode in recoverFrom consumes one.  The library encodes an
integer as a json number and a map[string]string as a json object, so the
two token shapes are distinguishable and decoding one shape into the other
fails, while decoding matches values losslessly. -/
inductive JsonTok
  | jint (n : Int)
  | jmap (m : List (String × String))
deriving DecidableEq, Repr

/-- Decoder.Decode into an int64 or int variable: fails on end of stream
and on a json object token. -/
def decodeInt : List JsonTok → Except String (Int × List JsonTok)
  | [] => .error "EOF"
  | .jint n :: rest => .ok (n, rest)
  | .jmap _ :: _ => .error "cannot unmarshal object into value of type int"

/-- Decoder.Decode into a map[string]string variable: fails on end of
stream and on a json number token. -/
def decodeMap : List JsonTok → Except String (List (String × String) × List JsonTok)
  | [] => .error "EOF"
  | .jmap m :: rest => .ok (m, rest)
  | .jint _ :: _ => .error "cannot unmarshal number into value of type map"

/-- KVServer.makeSnapshot: encode uniqueId, then commitIndex, then tab. -/
def makeSnapshot (kv : KVState) : List JsonTok :=
  [.jint kv.uniqueId, .jint kv.commitIndex, .jmap kv.tab]

/-- KVServer.recoverFrom: a nil or empty snapshot returns success without
touching any field; otherwise decode uniqueId, commitIndex and tab in this
order, returning the first decode error, and install the three fields only
when all three decodes succeed. -/
def recoverFrom (kv : KVState) (snapshot : List JsonTok) : Except String KVState :=
  if snapshot.isEmpty then .ok kv
  else
    match decodeInt snapshot with
    | .error e => .error ("recover from snapshot: decode currentTerm fails: " ++ e)
    | .ok (nextClientId, r1) =>
      match decodeInt r1 with
      | .error e => .error ("recover from snapshot: decode commitIndex fails: " ++ e)
      | .ok (commitIndex, r2) =>
        match decodeMap r2 with
        | .error e => .error ("recover from snapshot: decode tab fails: " ++ e)
        | .ok (tab, _) =>
          .ok { kv with uniqueId := nextClientId, commitIndex := commitIndex, tab := tab }

/-- Outcome of the snapshot branch of the apply loop: either the process
panics with the decode error, or the state is installed, with a warning
flag when the restored commitIndex disagrees with the raft snapshot
index. -/
inductive SnapApplyOutcome
  | panicked (msg : String)
  | applied (kv : KVState) (warned : Bool)
deriving DecidableEq, Repr

/-- The SnapshotValid branch of KVServer.apply: recoverFrom under the
lock; a decode error panics; otherwise warn when the restored commitIndex
differs from msg.SnapshotIndex. -/
def applySnapshotMsg (kv : KVState) (data : List JsonTok) (snapshotIndex : Int) :
    SnapApplyOutcome :=
  match recoverFrom kv data with
  | .error e => .panicked e
  | .ok kv2 => .applied kv2 (kv2.commitIndex != snapshotIndex)

/-- The sentinel sent to a displaced waiter in KVServer.submit: an
ApplyResult whose Term is the term just observed from Start and whose
SessionId is the zero value. -/
def displacedSentinel (commandTerm : Int) : ApplyResult :=
  { term := commandTerm, sessionId := "" }

/-- The registry critical section of KVServer.submit (lines 310-318): if a
channel is pending at commandIndex, send it the sentinel carrying the
newly observed term and close it; then install a fresh buffered channel of
capacity 1 at commandIndex.  Returns the new registry and the final state
of the displaced channel, if any. -/
def submitInstall (rc : List (Int × Chan)) (commandIndex commandTerm : Int) :
    List (Int × Chan) × Option Chan :=
  let evicted :=
    match alookup rc commandIndex with
    | some c => some { c with buf := c.buf ++ [displacedSentinel commandTerm], closed := true }
    | none => none
  (ainsert rc commandIndex { cap := 1, buf := [], closed := false }, evicted)

/-- Outcome of KVServer.submit given oracle values for the raft call
Start (commandIndex, commandTerm, isLeader) and for the ApplyResult
eventually received from the pending channel. -/
structure SubmitOutcome where
  result : Option ApplyResult
  errCode : ErrCode
  registry : List (Int × Chan)
  evicted : Option Chan
deriving DecidableEq, Repr

/-- KVServer.submit: if Start reports not leader, return WRONG_LEADER at
once with no result and no registry change; otherwise displace any pending
slot at the index, install a fresh one, block, and on receipt return OK
with the result exactly when the received term equals the term observed
from Start, and WRONG_LEADER with no result otherwise. -/
def submit (_op : Op) (rc : List (Int × Chan)) (commandIndex commandTerm : Int)
    (isLeader : Bool) (recv : ApplyResult) : SubmitOutcome :=
  if !isLeader then
    { result := none, errCode := .WRONG_LEADER, registry := rc, evicted := none }
  else
    let inst := submitInstall rc commandIndex commandTerm
    if recv.term == commandTerm then
      { result := some recv, errCode := .OK, registry := inst.1, evicted := inst.2 }
    else
      { result := none, errCode := .WRONG_LEADER, registry := inst.1, evicted := inst.2 }

/-- Result of one command-apply iteration: the new server state, the local
sessionId variable computed during the dispatch (empty except for
OpenSession), and the final state of the pending channel that was sent the
apply result, closed and removed, if one was registered at the index. -/
structure ApplyStepOut where
  st : KVState
  sessionId : String
  delivered : Option Chan
deriving DecidableEq, Repr

/-- The command dispatch of the apply loop (lines 389-410): mutate the
state machine according to the request type and compute the local
sessionId variable, empty except for OpenSession. -/
def applyDispatch (kv1 : KVState) (op : Op) (now : Nat) : KVState × String :=
  match op.requestType with
  | .OPEN_SESSION =>
    let sessionId := toString kv1.uniqueId ++ "-" ++ op.uuid
    ({ kv1 with
        sessionMap := ainsert kv1.sessionMap sessionId now,
        uniqueId := kv1.uniqueId + 1 }, sessionId)
  | .PUT => ({ kv1 with tab := ainsert kv1.tab op.key op.value }, "")
  | .APPEND =>
    let v := (alookup kv1.tab op.key).getD ""
    let v2 := v ++ op.value
    ({ kv1 with tab := ainsert kv1.tab op.key v2 }, "")
  | .DELETE => ({ kv1 with tab := aerase kv1.tab op.key }, "")
  | .GET => (kv1, "")

/-- The reply delivery of the apply loop (lines 411-420): if a channel is
pending at commandIndex, send it the ApplyResult, close it and delete it
from the registry. -/
def deliverReply (kv2 : KVState) (commandIndex commandTerm : Int) (sessionId : String) :
    ApplyStepOut :=
  match alookup kv2.replyChan commandIndex with
  | some ch =>
    { st := { kv2 with replyChan := aerase kv2.replyChan commandIndex }
      sessionId := sessionId
      delivered := some { ch with
        buf := ch.buf ++ [{ term := commandTerm, sessionId := sessionId }],
        closed := true } }
  | none => { st := kv2, sessionId := sessionId, delivered := none }

/-- The snapshot-threshold step of the apply loop (lines 421-430): when
snapshotting is enabled and the threshold is reached, rearm it at
commandIndex + maxRaftState. -/
def armSnapshot (post : ApplyStepOut) (commandIndex : Int) : ApplyStepOut :=
  if post.st.maxRaftState > 0 && commandIndex == post.st.nextSnapshotIndex then
    { post with st := { post.st with nextSnapshotIndex := commandIndex + post.st.maxRaftState } }
  else
    post

/-- One iteration of the CommandValid branch of KVServer.apply for the
message (commandIndex, commandTerm, op), with now the time.Now() value
used for a fresh session.  If commandIndex differs from commitIndex + 1
the message is ignored; otherwise commitIndex is advanced, the command is
dispatched on its type, the pending slot at commandIndex (if any) is sent
the ApplyResult, closed and deleted, and the snapshot threshold is
rearmed when it is enabled and has been reached. -/
def applyCommand (kv : KVState) (commandIndex commandTerm : Int) (op : Op)
    (now : Nat) : ApplyStepOut :=
  if commandIndex != kv.commitIndex + 1 then
    { st := kv, sessionId := "", delivered := none }
  else
    let kv1 := { kv with commitIndex := commandIndex }
    let step := applyDispatch kv1 op now
    armSnapshot (deliverReply step.1 commandIndex commandTerm step.2) commandIndex

/-- A command-apply message of the apply stream. -/
structure CmdMsg where
  commandIndex : Int
  commandTerm : Int
  op : Op
  now : Nat
deriving DecidableEq, Repr

/-- The state after the apply loop has consumed a list of command-apply
messages in order. -/
def applyAll (kv : KVState) : List CmdMsg → KVState
  | [] => kv
  | m :: rest => applyAll (applyCommand kv m.commandIndex m.commandTerm m.op m.now).st rest

/-- KVServer.checkSession: under the lock, a sessionId present in
sessionMap has its last-visit time refreshed to now and the check
succeeds; otherwise the check fails and nothing changes. -/
def checkSession (kv : KVState) (sessionId : String) (now : Nat) : KVState × Bool :=
  match alookup kv.sessionMap sessionId with
  | some _ => ({ kv with sessionMap := ainsert kv.sessionMap sessionId now }, true)
  | none => (kv, false)

/-- Reply of the Get RPC. -/
structure GetReply where
  value : String
  errCode : ErrCode
deriving DecidableEq, Repr

/-- Outcome of a handler run: the reply, the server state after the
handler's own mutations (session touch, slot installation), and whether
the handler reached the call of kv.rf.Start, that is whether the request
was submitted to consensus. -/
structure GetOutcome where
  reply : GetReply
  st : KVState
  submitted : Bool
deriving DecidableEq, Repr

/-- KVServer.Get, with oracle values for the raft calls and the channel
receive: reject in order on request type, local leadership
(kv.rf.GetState) and session validity, each rejection before any
submission; then submit a GET command; on OK read tab[key], answering
NO_KEY with empty value when the key is absent and OK with the value
otherwise. -/
def Get (kv : KVState) (key sessionId : String) (requestType : RequestType)
    (stateIsLeader : Bool) (commandIndex commandTerm : Int) (startIsLeader : Bool)
    (recv : ApplyResult) (now : Nat) : GetOutcome :=
  if requestType != .GET then
    { reply := { value := "", errCode := .INVALID_REQUEST_TYPE }, st := kv, submitted := false }
  else if !stateIsLeader then
    { reply := { value := "", errCode := .WRONG_LEADER }, st := kv, submitted := false }
  else
    let checked := checkSession kv sessionId now
    let kv1 := checked.1
    if !checked.2 then
      { reply := { value := "", errCode := .INVALID_SESSION }, st := kv1, submitted := false }
    else
      let command : Op := { requestType := .GET, key := key, value := "", uuid := "" }
      let sub := submit command kv1.replyChan commandIndex commandTerm startIsLeader recv
      let kv2 := { kv1 with replyChan := sub.registry }
      if sub.errCode == .OK then
        match alookup kv2.tab key with
        | none => { reply := { value := "", errCode := .NO_KEY }, st := kv2, submitted := true }
        | some v => { reply := { value := v, errCode := .OK }, st := kv2, submitted := true }
      else
        { reply := { value := "", errCode := sub.errCode }, st := kv2, submitted := true }

/-- Outcome of the Update RPC handler. -/
structure UpdateOutcome where
  errCode : ErrCode
  st : KVState
  submitted : Bool
deriving DecidableEq, Repr

/-- KVServer.Update, with oracle values for the raft calls and the channel
receive: reject in order on request type (only PUT, APPEND and DELETE are
accepted), local leadership and session validity, each rejection before
any submission; then submit the command and return the submission's error
code. -/
def Update (kv : KVState) (key value sessionId : String) (requestType : RequestType)
    (stateIsLeader : Bool) (commandIndex commandTerm : Int) (startIsLeader : Bool)
    (recv : ApplyResult) (now : Nat) : UpdateOutcome :=
  if requestType != .PUT && requestType != .APPEND && requestType != .DELETE then
    { errCode := .INVALID_REQUEST_TYPE, st := kv, submitted := false }
  else if !stateIsLeader then
    { errCode := .WRONG_LEADER, st := kv, submitted := false }
  else
    let checked := checkSession kv sessionId now
    let kv1 := checked.1
    if !checked.2 then
      { errCode := .INVALID_SESSION, st := kv1, submitted := false }
    else
      let command : Op := { requestType := requestType, key := key, value := value, uuid := "" }
      let sub := submit command kv1.replyChan commandIndex commandTerm startIsLeader recv
      { errCode := sub.errCode, st := { kv1 with replyChan := sub.registry }, submitted := true }

/-- The session-relevant configuration outcome of StartKVServer. -/
structure KVConfig where
  port : Int
  maxRaftState : Int
  nextSnapshotIndex : Int
  sessionTimeoutSecs : Int
  reaperStarted : Bool
deriving DecidableEq, Repr

/-- The configuration phase of StartKVServer (lines 69-74, 102-127 and
149-151 of the server source), given the commitIndex already recovered:
a negative port is rejected, port 0 selects 8080; a positive maxRaftState
arms the snapshot threshold at commitIndex + maxRaftState, otherwise
snapshots are disabled; sessionTimeout 0 is replaced by the default of
60 * 60 seconds, a negative sessionTimeout is kept as is; the session
reaper goroutine is started exactly when the resulting sessionTimeout is
positive. -/
def configureKVServer (commitIndex portConf maxRaftStateConf sessionTimeoutConf : Int) :
    Except String KVConfig :=
  if portConf < 0 then
    .error ("KVServer port " ++ toString portConf ++ " is invalid")
  else
    let port := if portConf == 0 then 8080 else portConf
    let arm :=
      if maxRaftStateConf > 0 then (maxRaftStateConf, commitIndex + maxRaftStateConf)
      else (-1, -1)
    let sessionTimeout :=
      if sessionTimeoutConf >= 0 then
        if sessionTimeoutConf == 0 then 60 * 60 else sessionTimeoutConf
      else sessionTimeoutConf
    .ok { port := port, maxRaftState := arm.1, nextSnapshotIndex := arm.2,
          sessionTimeoutSecs := sessionTimeout, reaperStarted := sessionTimeout > 0 }

/-- The state built by StartKVServer when storage holds no snapshot:
uniqueId 1, empty tab, commitIndex 0, empty registries, and the snapshot
threshold armed from the configured maxRaftState. -/
def startupState (maxRaftStateConf : Int) : KVState :=
  { uniqueId := 1
    commitIndex := 0
    tab := []
    sessionMap := []
    replyChan := []
    maxRaftState := if maxRaftStateConf > 0 then maxRaftStateConf else -1
    nextSnapshotIndex := if maxRaftStateConf > 0 then 0 + maxRaftStateConf else -1 }

/-- Synchronization-relevant events of one run of the Get handler: mutex
acquisition and release of kv.mu, the call of kv.rf.Start, the blocking
channel receive, the read of kv.tab, and the emission of the reply. -/
inductive Ev
  | lock
  | unlock
  | startCall
  | recvResult
  | readTab
  | reply (e : ErrCode)
deriving DecidableEq, Repr

/-- The event trace of KVServer.Get (lines 202-244), inlining the locking
of checkSession (282-291: Lock, check and possibly touch, Unlock in both
branches) and of submit (310-318: Lock, registry update, Unlock, then the
channel receive).  The Get handler itself takes no lock after submit
returns: the read of kv.tab at line 229 happens with no lock held. -/
def getEvents (requestType : RequestType)
    (stateIsLeader sessionValid startIsLeader termMatch keyExists : Bool) : List Ev :=
  if requestType != .GET then [.reply .INVALID_REQUEST_TYPE]
  else if !stateIsLeader then [.reply .WRONG_LEADER]
  else
    [.lock, .unlock] ++
    (if !sessionValid then [.reply .INVALID_SESSION]
     else
       [.startCall] ++
       (if !startIsLeader then [.reply .WRONG_LEADER]
        else
          [.lock, .unlock, .recvResult] ++
          (if termMatch then
             [.readTab, .reply (if keyExists then .OK else .NO_KEY)]
           else [.reply .WRONG_LEADER])))

/-- Net number of currently held acquisitions of kv.mu after a list of
events. -/
def lockBalance (tr : List Ev) : Int :=
  tr.foldl (fun d e => match e with | .lock => d + 1 | .unlock => d - 1 | _ => d) 0

/-- A list of pairs represents a Go map when its keys are pairwise
distinct, so that each key holds at most one entry. -/
def keysNodup {α β : Type} (m : List (α × β)) : Prop :=
  (m.map Prod.fst).Nodup

theorem find?_filter_ne {α β : Type} [BEq α] [LawfulBEq α]
    (m : List (α × β)) (k k2 : α) (h : k2 ≠ k) :
    (m.filter (fun p => !(p.1 == k))).find? (fun p => p.1 == k2) =
      m.find? (fun p => p.1 == k2) := by
  induction m with
  | nil => rfl
  | cons a m ih =>
    cases hk : (a.1 == k) with
    | true =>
      have ha : a.1 = k := eq_of_beq hk
      have h2 : (a.1 == k2) = false := by
        simp only [beq_eq_false_iff_ne, ne_eq, ha]
        exact fun hh => h hh.symm
      simp [List.filter_cons, List.find?_cons, hk, h2, ih]
    | false =>
      cases h2 : (a.1 == k2) with
      | true => simp [List.filter_cons, List.find?_cons, hk, h2]
      | false => simp [List.filter_cons, List.find?_cons, hk, h2, ih]

theorem alookup_ainsert_self {α β : Type} [BEq α] [LawfulBEq α]
    (m : List (α × β)) (k : α) (v : β) :
    alookup (ainsert m k v) k = some v := by
  simp [alookup, ainsert, List.find?_cons]

theorem alookup_ainsert_ne {α β : Type} [BEq α] [LawfulBEq α]
    (m : List (α × β)) (k k2 : α) (v : β) (h : k2 ≠ k) :
    alookup (ainsert m k v) k2 = alookup m k2 := by
  have hk : (k == k2) = false := by
    simp only [beq_eq_false_iff_ne, ne_eq]
    exact fun hh => h hh.symm
  simp [alookup, ainsert, List.find?_cons, hk, find?_filter_ne m k k2 h]

theorem alookup_aerase_self {α β : Type} [BEq α] [LawfulBEq α]
    (m : List (α × β)) (k : α) :
    alookup (aerase m k) k = none := by
  have hnone : (m.filter (fun p => !(p.1 == k))).find? (fun p => p.1 == k) = none := by
    rw [List.find?_eq_none]
    intro p hp
    have h2 := (List.mem_filter.mp hp).2
    simp at h2
    simp [h2]
  simp [alookup, aerase, hnone]

theorem alookup_aerase_ne {α β : Type} [BEq α] [LawfulBEq α]
    (m : List (α × β)) (k k2 : α) (h : k2 ≠ k) :
    alookup (aerase m k) k2 = alookup m k2 := by
  simp [alookup, aerase, find?_filter_ne m k k2 h]

theorem map_fst_filter_key {α β : Type} [BEq α]
    (m : List (α × β)) (k : α) :
    (m.filter (fun p => !(p.1 == k))).map Prod.fst =
      (m.map Prod.fst).filter (fun a => !(a == k)) := by
  induction m with
  | nil => rfl
  | cons a m ih =>
    by_cases hk : (a.1 == k) = true
    · simp [List.filter_cons, hk, ih]
    · simp only [Bool.not_eq_true] at hk
      simp [List.filter_cons, hk, ih]

theorem keysNodup_ainsert {α β : Type} [BEq α] [LawfulBEq α]
    (m : List (α × β)) (k : α) (v : β) (h : keysNodup m) :
    keysNodup (ainsert m k v) := by
  simp only [keysNodup, ainsert, List.map_cons, List.nodup_cons, map_fst_filter_key]
  constructor
  · intro hmem
    have := (List.mem_filter.mp hmem).2
    simp at this
  · exact h.filter _

theorem keysNodup_aerase {α β : Type} [BEq α] [LawfulBEq α]
    (m : List (α × β)) (k : α) (h : keysNodup m) :
    keysNodup (aerase m k) := by
  simp only [keysNodup, aerase, map_fst_filter_key]
  exact h.filter _

theorem filter_key_ainsert {α β : Type} [BEq α] [LawfulBEq α]
    (m : List (α × β)) (k : α) (v : β) :
    (ainsert m k v).filter (fun p => p.1 == k) = [(k, v)] := by
  simp only [ainsert, List.filter_cons, beq_self_eq_true, if_pos]
  rw [List.filter_filter]
  simp

theorem armSnapshot_st_commitIndex (p : ApplyStepOut) (i : Int) :
    (armSnapshot p i).st.commitIndex = p.st.commitIndex := by
  unfold armSnapshot; split <;> rfl

theorem armSnapshot_st_tab (p : ApplyStepOut) (i : Int) :
    (armSnapshot p i).st.tab = p.st.tab := by
  unfold armSnapshot; split <;> rfl

theorem armSnapshot_st_uniqueId (p : ApplyStepOut) (i : Int) :
    (armSnapshot p i).st.uniqueId = p.st.uniqueId := by
  unfold armSnapshot; split <;> rfl

theorem armSnapshot_st_sessionMap (p : ApplyStepOut) (i : Int) :
    (armSnapshot p i).st.sessionMap = p.st.sessionMap := by
  unfold armSnapshot; split <;> rfl

theorem armSnapshot_st_replyChan (p : ApplyStepOut) (i : Int) :
    (armSnapshot p i).st.replyChan = p.st.replyChan := by
  unfold armSnapshot; split <;> rfl

theorem armSnapshot_sessionId (p : ApplyStepOut) (i : Int) :
    (armSnapshot p i).sessionId = p.sessionId := by
  unfold armSnapshot; split <;> rfl

theorem armSnapshot_delivered (p : ApplyStepOut) (i : Int) :
    (armSnapshot p i).delivered = p.delivered := by
  unfold armSnapshot; split <;> rfl

theorem deliverReply_st_commitIndex (kv : KVState) (i t : Int) (sid : String) :
    (deliverReply kv i t sid).st.commitIndex = kv.commitIndex := by
  unfold deliverReply; split <;> rfl

theorem deliverReply_st_tab (kv : KVState) (i t : Int) (sid : String) :
    (deliverReply kv i t sid).st.tab = kv.tab := by
  unfold deliverReply; split <;> rfl

theorem deliverReply_st_uniqueId (kv : KVState) (i t : Int) (sid : String) :
    (deliverReply kv i t sid).st.uniqueId = kv.uniqueId := by
  unfold deliverReply; split <;> rfl

theorem deliverReply_st_sessionMap (kv : KVState) (i t : Int) (sid : String) :
    (deliverReply kv i t sid).st.sessionMap = kv.sessionMap := by
  unfold deliverReply; split <;> rfl

theorem deliverReply_sessionId (kv : KVState) (i t : Int) (sid : String) :
    (deliverReply kv i t sid).sessionId = sid := by
  unfold deliverReply; split <;> rfl

theorem applyDispatch_commitIndex (kv : KVState) (op : Op) (now : Nat) :
    (applyDispatch kv op now).1.commitIndex = kv.commitIndex := by
  unfold applyDispatch; cases op.requestType <;> rfl

theorem applyDispatch_replyChan (kv : KVState) (op : Op) (now : Nat) :
    (applyDispatch kv op now).1.replyChan = kv.replyChan := by
  unfold applyDispatch; cases op.requestType <;> rfl

theorem applyCommand_ignored (kv : KVState) (i t : Int) (op : Op) (now : Nat)
    (h : i ≠ kv.commitIndex + 1) :
    applyCommand kv i t op now = { st := kv, sessionId := "", delivered := none } := by
  have hb : (i != kv.commitIndex + 1) = true := by simpa using h
  simp [applyCommand, hb]

theorem applyCommand_expected_eq (kv : KVState) (i t : Int) (op : Op) (now : Nat)
    (h : i = kv.commitIndex + 1) :
    applyCommand kv i t op now =
      armSnapshot
        (deliverReply (applyDispatch { kv with commitIndex := i } op now).1 i t
          (applyDispatch { kv with commitIndex := i } op now).2) i := by
  have hb : (i != kv.commitIndex + 1) = false := by simpa using h
  simp [applyCommand, hb]

theorem applyCommand_st_commitIndex (kv : KVState) (i t : Int) (op : Op) (now : Nat)
    (h : i = kv.commitIndex + 1) :
    (applyCommand kv i t op now).st.commitIndex = i := by
  rw [applyCommand_expected_eq kv i t op now h, armSnapshot_st_commitIndex,
    deliverReply_st_commitIndex, applyDispatch_commitIndex]

theorem applyCommand_commitIndex_mono (kv : KVState) (i t : Int) (op : Op) (now : Nat) :
    kv.commitIndex ≤ (applyCommand kv i t op now).st.commitIndex := by
  by_cases h : i = kv.commitIndex + 1
  · rw [applyCommand_st_commitIndex kv i t op now h, h]
    omega
  · rw [applyCommand_ignored kv i t op now h]

theorem applyAll_commitIndex_mono (msgs : List CmdMsg) (kv : KVState) :
    kv.commitIndex ≤ (applyAll kv msgs).commitIndex := by
  induction msgs generalizing kv with
  | nil => exact le_refl _
  | cons m rest ih =>
    calc kv.commitIndex
        ≤ (applyCommand kv m.commandIndex m.commandTerm m.op m.now).st.commitIndex :=
          applyCommand_commitIndex_mono kv m.commandIndex m.commandTerm m.op m.now
      _ ≤ (applyAll (applyCommand kv m.commandIndex m.commandTerm m.op m.now).st rest).commitIndex :=
          ih _
      _ = (applyAll kv (m :: rest)).commitIndex := rfl

/-- C1: for every command passed to submit, if Start reports isLeader
false then submit returns WRONG_LEADER immediately with no apply result
and no registry change; otherwise it blocks on its pending slot and, when
a result is delivered, returns OK together with that result if and only
if the delivered term equals the term observed from Start, and
WRONG_LEADER with no result when the terms differ. -/
theorem submit_result_iff_term_match (op : Op) (rc : List (Int × Chan))
    (ci ct : Int) (isLeader : Bool) (recv : ApplyResult) :
    (isLeader = false →
      submit op rc ci ct isLeader recv =
        { result := none, errCode := .WRONG_LEADER, registry := rc, evicted := none })
    ∧ (isLeader = true → recv.term = ct →
        (submit op rc ci ct isLeader recv).result = some recv ∧
        (submit op rc ci ct isLeader recv).errCode = .OK)
    ∧ (isLeader = true → recv.term ≠ ct →
        (submit op rc ci ct isLeader recv).result = none ∧
        (submit op rc ci ct isLeader recv).errCode = .WRONG_LEADER)
    ∧ (isLeader = true →
        ((submit op rc ci ct isLeader recv).errCode = .OK ↔ recv.term = ct)) := by
  refine ⟨?_, ?_, ?_, ?_⟩
  · intro h; subst h; rfl
  · intro h ht; subst h; simp [submit, ht]
  · intro h ht; subst h
    have hb : (recv.term == ct) = false := by simpa using ht
    simp [submit, hb]
  · intro h; subst h
    by_cases ht : recv.term = ct
    · simp [submit, ht]
    · have hb : (recv.term == ct) = false := by simpa using ht
      simp [submit, hb, ht]

theorem submit_result_iff_term_match_w :
    (submit { requestType := .GET, key := "", value := "", uuid := "" } [] 1 2 false
        { term := 2, sessionId := "" } =
      { result := none, errCode := .WRONG_LEADER, registry := [], evicted := none })
    ∧ ((submit { requestType := .GET, key := "", value := "", uuid := "" } [] 1 2 true
          { term := 2, sessionId := "" }).result = some { term := 2, sessionId := "" } ∧
       (submit { requestType := .GET, key := "", value := "", uuid := "" } [] 1 2 true
          { term := 2, sessionId := "" }).errCode = .OK)
    ∧ ((submit { requestType := .GET, key := "", value := "", uuid := "" } [] 1 2 true
          { term := 3, sessionId := "" }).result = none ∧
       (submit { requestType := .GET, key := "", value := "", uuid := "" } [] 1 2 true
          { term := 3, sessionId := "" }).errCode = .WRONG_LEADER) :=
  ⟨(submit_result_iff_term_match _ [] 1 2 false _).1 rfl,
   (submit_result_iff_term_match _ [] 1 2 true _).2.1 rfl rfl,
   (submit_result_iff_term_match _ [] 1 2 true _).2.2.1 rfl (by decide)⟩

/-- C3: a command-apply message whose index is not commitIndex + 1 is
ignored, changing no field of the server state; otherwise commitIndex is
set to that index, an advance by exactly 1; consequently commitIndex is
monotonically non-decreasing over any sequence of command-apply
messages. -/
theorem commitIndex_advances_by_one (kv : KVState) (i t : Int) (op : Op)
    (now : Nat) (msgs : List CmdMsg) :
    (i ≠ kv.commitIndex + 1 →
      applyCommand kv i t op now = { st := kv, sessionId := "", delivered := none })
    ∧ (i = kv.commitIndex + 1 →
      (applyCommand kv i t op now).st.commitIndex = kv.commitIndex + 1)
    ∧ kv.commitIndex ≤ (applyAll kv msgs).commitIndex := by
  refine ⟨applyCommand_ignored kv i t op now, ?_, applyAll_commitIndex_mono msgs kv⟩
  intro h
  rw [applyCommand_st_commitIndex kv i t op now h]
  exact h

theorem commitIndex_advances_by_one_w :
    applyCommand (startupState 0) 5 0 { requestType := .GET, key := "", value := "", uuid := "" } 0 =
      { st := startupState 0, sessionId := "", delivered := none }
    ∧ (applyCommand (startupState 0) 1 0 { requestType := .GET, key := "", value := "", uuid := "" } 0).st.commitIndex =
        (startupState 0).commitIndex + 1 :=
  ⟨(commitIndex_advances_by_one (startupState 0) 5 0 _ 0 []).1 (by decide),
   (commitIndex_advances_by_one (startupState 0) 1 0 _ 0 []).2.1 (by decide)⟩

/-- A small concrete server state used to instantiate theorems with
hypotheses on concrete inputs. -/
def sampleState : KVState :=
  { uniqueId := 1
    commitIndex := 0
    tab := [("a", "1")]
    sessionMap := []
    replyChan := []
    maxRaftState := -1
    nextSnapshotIndex := -1 }

theorem applyCommand_st_tab (kv : KVState) (i t : Int) (op : Op) (now : Nat)
    (h : i = kv.commitIndex + 1) :
    (applyCommand kv i t op now).st.tab =
      (applyDispatch { kv with commitIndex := i } op now).1.tab := by
  rw [applyCommand_expected_eq kv i t op now h, armSnapshot_st_tab, deliverReply_st_tab]

theorem applyCommand_put_tab (kv : KVState) (i t : Int) (k v u : String) (now : Nat)
    (h : i = kv.commitIndex + 1) :
    (applyCommand kv i t { requestType := .PUT, key := k, value := v, uuid := u } now).st.tab =
      ainsert kv.tab k v := by
  rw [applyCommand_st_tab kv i t _ now h]; rfl

theorem applyCommand_append_tab (kv : KVState) (i t : Int) (k v u : String) (now : Nat)
    (h : i = kv.commitIndex + 1) :
    (applyCommand kv i t { requestType := .APPEND, key := k, value := v, uuid := u } now).st.tab =
      ainsert kv.tab k ((alookup kv.tab k).getD "" ++ v) := by
  rw [applyCommand_st_tab kv i t _ now h]; rfl

theorem applyCommand_delete_tab (kv : KVState) (i t : Int) (k v u : String) (now : Nat)
    (h : i = kv.commitIndex + 1) :
    (applyCommand kv i t { requestType := .DELETE, key := k, value := v, uuid := u } now).st.tab =
      aerase kv.tab k := by
  rw [applyCommand_st_tab kv i t _ now h]; rfl

theorem string_empty_append (v : String) : "" ++ v = v := by
  apply congrArg String.mk
  exact List.nil_append v.data

/-- C2: for every command applied at the expected index, Put sets
tab[key] to value, Append sets tab[key] to the previous value (empty when
the key is absent) concatenated with value, so Append on an absent key
yields exactly value, Delete removes key, and each of these operations
leaves every other key unchanged. -/
theorem apply_put_append_delete_semantics (kv : KVState) (i t : Int) (now : Nat)
    (k v u : String) (h : i = kv.commitIndex + 1) :
    (alookup (applyCommand kv i t { requestType := .PUT, key := k, value := v, uuid := u } now).st.tab k = some v
      ∧ ∀ k2, k2 ≠ k →
        alookup (applyCommand kv i t { requestType := .PUT, key := k, value := v, uuid := u } now).st.tab k2 =
          alookup kv.tab k2)
    ∧ (alookup (applyCommand kv i t { requestType := .APPEND, key := k, value := v, uuid := u } now).st.tab k =
          some ((alookup kv.tab k).getD "" ++ v)
      ∧ (alookup kv.tab k = none →
          alookup (applyCommand kv i t { requestType := .APPEND, key := k, value := v, uuid := u } now).st.tab k =
            some v)
      ∧ ∀ k2, k2 ≠ k →
        alookup (applyCommand kv i t { requestType := .APPEND, key := k, value := v, uuid := u } now).st.tab k2 =
          alookup kv.tab k2)
    ∧ (alookup (applyCommand kv i t { requestType := .DELETE, key := k, value := v, uuid := u } now).st.tab k = none
      ∧ ∀ k2, k2 ≠ k →
        alookup (applyCommand kv i t { requestType := .DELETE, key := k, value := v, uuid := u } now).st.tab k2 =
          alookup kv.tab k2) := by
  rw [applyCommand_put_tab kv i t k v u now h, applyCommand_append_tab kv i t k v u now h,
    applyCommand_delete_tab kv i t k v u now h]
  refine ⟨⟨alookup_ainsert_self _ _ _, fun k2 h2 => alookup_ainsert_ne _ _ _ _ h2⟩,
    ⟨alookup_ainsert_self _ _ _, ?_, fun k2 h2 => alookup_ainsert_ne _ _ _ _ h2⟩,
    alookup_aerase_self _ _, fun k2 h2 => alookup_aerase_ne _ _ _ h2⟩
  intro hnone
  rw [alookup_ainsert_self, hnone]
  simp [string_empty_append]

theorem apply_put_append_delete_semantics_w :
    alookup (applyCommand sampleState 1 0 { requestType := .PUT, key := "a", value := "2", uuid := "" } 0).st.tab "a" =
      some "2"
    ∧ alookup (applyCommand sampleState 1 0 { requestType := .PUT, key := "a", value := "2", uuid := "" } 0).st.tab "b" =
        alookup sampleState.tab "b"
    ∧ alookup (applyCommand sampleState 1 0 { requestType := .APPEND, key := "a", value := "x", uuid := "" } 0).st.tab "a" =
        some ((alookup sampleState.tab "a").getD "" ++ "x")
    ∧ alookup (applyCommand sampleState 1 0 { requestType := .APPEND, key := "z", value := "x", uuid := "" } 0).st.tab "z" =
        some "x"
    ∧ alookup (applyCommand sampleState 1 0 { requestType := .DELETE, key := "a", value := "", uuid := "" } 0).st.tab "a" =
        none :=
  ⟨(apply_put_append_delete_semantics sampleState 1 0 0 "a" "2" "" (by decide)).1.1,
   (apply_put_append_delete_semantics sampleState 1 0 0 "a" "2" "" (by decide)).1.2 "b" (by decide),
   (apply_put_append_delete_semantics sampleState 1 0 0 "a" "x" "" (by decide)).2.1.1,
   (apply_put_append_delete_semantics sampleState 1 0 0 "z" "x" "" (by decide)).2.1.2.1 (by decide),
   (apply_put_append_delete_semantics sampleState 1 0 0 "a" "" "" (by decide)).2.2.1⟩

theorem applyCommand_open_sessionId (kv : KVState) (i t : Int) (nonce : String)
    (now : Nat) (h : i = kv.commitIndex + 1) :
    (applyCommand kv i t { requestType := .OPEN_SESSION, key := "", value := "", uuid := nonce } now).sessionId =
      toString kv.uniqueId ++ "-" ++ nonce := by
  rw [applyCommand_expected_eq kv i t _ now h, armSnapshot_sessionId, deliverReply_sessionId]
  rfl

theorem applyCommand_open_sessionMap (kv : KVState) (i t : Int) (nonce : String)
    (now : Nat) (h : i = kv.commitIndex + 1) :
    (applyCommand kv i t { requestType := .OPEN_SESSION, key := "", value := "", uuid := nonce } now).st.sessionMap =
      ainsert kv.sessionMap (toString kv.uniqueId ++ "-" ++ nonce) now := by
  rw [applyCommand_expected_eq kv i t _ now h, armSnapshot_st_sessionMap, deliverReply_st_sessionMap]
  rfl

theorem applyCommand_open_uniqueId (kv : KVState) (i t : Int) (nonce : String)
    (now : Nat) (h : i = kv.commitIndex + 1) :
    (applyCommand kv i t { requestType := .OPEN_SESSION, key := "", value := "", uuid := nonce } now).st.uniqueId =
      kv.uniqueId + 1 := by
  rw [applyCommand_expected_eq kv i t _ now h, armSnapshot_st_uniqueId, deliverReply_st_uniqueId]
  rfl

/-- C8: every applied OpenSession forms its session identifier as the
decimal rendering of the current uniqueId, then a dash, then the nonce
supplied at submission, records it in the session registry, and
increments uniqueId by 1; a server started without a snapshot has
uniqueId 1, so its first applied OpenSession yields sessionId
1-nonce. -/
theorem openSession_sessionId_format (kv : KVState) (i t : Int) (nonce : String)
    (now : Nat) (m : Int) (h : i = kv.commitIndex + 1) :
    (applyCommand kv i t { requestType := .OPEN_SESSION, key := "", value := "", uuid := nonce } now).sessionId =
      toString kv.uniqueId ++ "-" ++ nonce
    ∧ alookup
        (applyCommand kv i t { requestType := .OPEN_SESSION, key := "", value := "", uuid := nonce } now).st.sessionMap
        (toString kv.uniqueId ++ "-" ++ nonce) = some now
    ∧ (applyCommand kv i t { requestType := .OPEN_SESSION, key := "", value := "", uuid := nonce } now).st.uniqueId =
        kv.uniqueId + 1
    ∧ (startupState m).uniqueId = 1
    ∧ (applyCommand (startupState m) 1 t { requestType := .OPEN_SESSION, key := "", value := "", uuid := nonce } now).sessionId =
        "1-" ++ nonce := by
  have h1 : (1 : Int) = (startupState m).commitIndex + 1 := by
    show (1 : Int) = 0 + 1
    decide
  refine ⟨applyCommand_open_sessionId kv i t nonce now h, ?_,
    applyCommand_open_uniqueId kv i t nonce now h, rfl, ?_⟩
  · rw [applyCommand_open_sessionMap kv i t nonce now h]
    exact alookup_ainsert_self _ _ _
  · rw [applyCommand_open_sessionId (startupState m) 1 t nonce now h1]
    show (toString (1 : Int) ++ "-") ++ nonce = "1-" ++ nonce
    have : (toString (1 : Int) ++ "-" : String) = "1-" := by decide
    rw [this]

theorem openSession_sessionId_format_w :
    (applyCommand sampleState 1 0 { requestType := .OPEN_SESSION, key := "", value := "", uuid := "abc" } 0).sessionId =
      toString sampleState.uniqueId ++ "-" ++ "abc"
    ∧ (applyCommand sampleState 1 0 { requestType := .OPEN_SESSION, key := "", value := "", uuid := "abc" } 0).st.uniqueId =
        sampleState.uniqueId + 1
    ∧ (applyCommand (startupState 0) 1 0 { requestType := .OPEN_SESSION, key := "", value := "", uuid := "abc" } 0).sessionId =
        "1-" ++ "abc" :=
  ⟨(openSession_sessionId_format sampleState 1 0 "abc" 0 0 (by decide)).1,
   (openSession_sessionId_format sampleState 1 0 "abc" 0 0 (by decide)).2.2.1,
   (openSession_sessionId_format sampleState 1 0 "abc" 0 0 (by decide)).2.2.2.2⟩

/-- C4: decoding the blob produced by makeSnapshot restores exactly the
encoded uniqueId, commitIndex and tab, for every state with non-negative
counters and string keys and values. -/
theorem snapshot_roundtrip (kv s : KVState) (h1 : 0 ≤ s.uniqueId) (h2 : 0 ≤ s.commitIndex) :
    recoverFrom kv (makeSnapshot s) =
      .ok { kv with uniqueId := s.uniqueId, commitIndex := s.commitIndex, tab := s.tab } := by
  rfl

theorem snapshot_roundtrip_w :
    recoverFrom (startupState 0) (makeSnapshot sampleState) =
      .ok { startupState 0 with
              uniqueId := sampleState.uniqueId,
              commitIndex := sampleState.commitIndex,
              tab := sampleState.tab } :=
  snapshot_roundtrip (startupState 0) sampleState (by decide) (by decide)

/-- A sample pending channel for concrete instantiations. -/
def sampleChan : Chan := { cap := 1, buf := [], closed := false }

/-- A sample server state with a pending slot registered at index 1. -/
def sampleRegState : KVState := { sampleState with replyChan := [(1, sampleChan)] }

/-- C6: the reply registry keeps at most one pending slot per log index:
submit evicts any prior slot at the obtained index, sending it a sentinel
carrying the newly observed term and closing it, before installing the
fresh single-capacity slot, leaving other indices untouched and exactly
one slot at the index; and the apply pump, delivering at the expected
index, sends the result to the registered slot, closes it and removes it
from the registry; both operations preserve key uniqueness of the
registry. -/
theorem pending_slot_registry_protocol (rc : List (Int × Chan)) (i j t : Int) (c : Chan)
    (kv : KVState) (op : Op) (now : Nat) (ch : Chan) :
    ((submitInstall rc i t).1.filter (fun p => p.1 == i) =
        [(i, { cap := 1, buf := [], closed := false })])
    ∧ (keysNodup rc → keysNodup (submitInstall rc i t).1)
    ∧ (alookup rc i = some c →
        (submitInstall rc i t).2 =
          some { c with buf := c.buf ++ [displacedSentinel t], closed := true })
    ∧ (alookup rc i = none → (submitInstall rc i t).2 = none)
    ∧ (j ≠ i → alookup (submitInstall rc i t).1 j = alookup rc j)
    ∧ (i = kv.commitIndex + 1 → alookup kv.replyChan i = some ch →
        (applyCommand kv i t op now).delivered =
          some { ch with
                  buf := ch.buf ++ [{ term := t, sessionId := (applyCommand kv i t op now).sessionId }],
                  closed := true }
        ∧ alookup (applyCommand kv i t op now).st.replyChan i = none)
    ∧ (keysNodup kv.replyChan → keysNodup (applyCommand kv i t op now).st.replyChan) := by
  refine ⟨filter_key_ainsert rc i _, fun hnd => keysNodup_ainsert rc i _ hnd, ?_, ?_, ?_, ?_, ?_⟩
  · intro hc; simp [submitInstall, hc]
  · intro hc; simp [submitInstall, hc]
  · intro hj; exact alookup_ainsert_ne rc i j _ hj
  · intro h hch
    have hd : alookup (applyDispatch { kv with commitIndex := i } op now).1.replyChan i = some ch := by
      rw [applyDispatch_replyChan]; exact hch
    rw [applyCommand_expected_eq kv i t op now h]
    rw [armSnapshot_delivered, armSnapshot_sessionId, armSnapshot_st_replyChan,
      deliverReply_sessionId]
    constructor
    · simp [deliverReply, hd]
    · simp only [deliverReply, hd]
      exact alookup_aerase_self _ _
  · intro hnd
    by_cases h : i = kv.commitIndex + 1
    · rw [applyCommand_expected_eq kv i t op now h, armSnapshot_st_replyChan]
      cases hch : alookup kv.replyChan i with
      | some c2 =>
        have hd : alookup (applyDispatch { kv with commitIndex := i } op now).1.replyChan i = some c2 := by
          rw [applyDispatch_replyChan]; exact hch
        simp only [deliverReply, hd]
        rw [show (applyDispatch { kv with commitIndex := i } op now).1.replyChan = kv.replyChan from
          applyDispatch_replyChan _ _ _] at *
        exact keysNodup_aerase _ _ hnd
      | none =>
        have hd : alookup (applyDispatch { kv with commitIndex := i } op now).1.replyChan i = none := by
          rw [applyDispatch_replyChan]; exact hch
        simp only [deliverReply, hd]
        rw [applyDispatch_replyChan]
        exact hnd
    · rw [applyCommand_ignored kv i t op now h]; exact hnd

theorem pending_slot_registry_protocol_w :
    ((submitInstall [((1 : Int), sampleChan)] 1 7).2 =
      some { sampleChan with buf := sampleChan.buf ++ [displacedSentinel 7], closed := true })
    ∧ alookup (submitInstall [((1 : Int), sampleChan)] 1 7).1 2 =
        alookup [((1 : Int), sampleChan)] 2
    ∧ keysNodup (submitInstall [((1 : Int), sampleChan)] 1 7).1
    ∧ ((applyCommand sampleRegState 1 7 { requestType := .GET, key := "", value := "", uuid := "" } 0).delivered =
        some { sampleChan with
                buf := sampleChan.buf ++
                  [{ term := 7,
                     sessionId := (applyCommand sampleRegState 1 7 { requestType := .GET, key := "", value := "", uuid := "" } 0).sessionId }],
                closed := true }
        ∧ alookup (applyCommand sampleRegState 1 7 { requestType := .GET, key := "", value := "", uuid := "" } 0).st.replyChan 1 = none) :=
  ⟨(pending_slot_registry_protocol [((1 : Int), sampleChan)] 1 2 7 sampleChan sampleRegState
      { requestType := .GET, key := "", value := "", uuid := "" } 0 sampleChan).2.2.1 (by decide),
   (pending_slot_registry_protocol [((1 : Int), sampleChan)] 1 2 7 sampleChan sampleRegState
      { requestType := .GET, key := "", value := "", uuid := "" } 0 sampleChan).2.2.2.2.1 (by decide),
   (pending_slot_registry_protocol [((1 : Int), sampleChan)] 1 2 7 sampleChan sampleRegState
      { requestType := .GET, key := "", value := "", uuid := "" } 0 sampleChan).2.1
     (by unfold keysNodup; decide),
   (pending_slot_registry_protocol [((1 : Int), sampleChan)] 1 2 7 sampleChan sampleRegState
      { requestType := .GET, key := "", value := "", uuid := "" } 0 sampleChan).2.2.2.2.2.1 (by decide) (by decide)⟩

/-- The blobs carrying the three snapshot fields of state s in an order
in which the tab field is not the third token.  An interchange of the two
integer fields alone produces the same token stream as the in-order
encoding of another state and is therefore not listed: the decoder cannot
distinguish it. -/
def misOrderings (s : KVState) : List (List JsonTok) :=
  [[.jmap s.tab, .jint s.uniqueId, .jint s.commitIndex],
   [.jmap s.tab, .jint s.commitIndex, .jint s.uniqueId],
   [.jint s.uniqueId, .jmap s.tab, .jint s.commitIndex],
   [.jint s.commitIndex, .jmap s.tab, .jint s.uniqueId]]

/-- C7 counterexample: the empty blob is a strict prefix of the valid
encoding of a state (a truncated blob in the sense of the claim), yet
recoverFrom returns success on it rather than an error. -/
theorem recoverFrom_empty_blob_cex :
    ([] : List JsonTok) ++ [JsonTok.jint 1, JsonTok.jint 0, JsonTok.jmap [("a", "1")]] =
      makeSnapshot sampleState
    ∧ ([] : List JsonTok) ≠ makeSnapshot sampleState
    ∧ recoverFrom sampleState [] = .ok sampleState :=
  ⟨by decide, by decide, rfl⟩

/-- C7 amended: recoverFrom rejects every nonempty strict truncation of a
valid blob and every blob whose tab field is not the third token, and a
decode failure during snapshot apply terminates the process; the empty
blob, however, is accepted as a no-op without installing any field. -/
theorem recoverFrom_rejects_bad_blobs (kv s : KVState) (p : List JsonTok) (idx : Int)
    (h : (p ≠ [] ∧ p ≠ makeSnapshot s ∧ ∃ q, p ++ q = makeSnapshot s) ∨ p ∈ misOrderings s) :
    ∃ e, recoverFrom kv p = .error e ∧ applySnapshotMsg kv p idx = .panicked e := by
  rcases h with ⟨hne, hnf, q, hq⟩ | hm
  · match p, hne, hnf, hq with
    | [], hne, _, _ => exact absurd rfl hne
    | [x], _, _, hq =>
      simp only [makeSnapshot, List.cons_append, List.nil_append, List.cons.injEq] at hq
      obtain ⟨hx, -⟩ := hq
      subst hx
      exact ⟨_, rfl, rfl⟩
    | [x, y], _, _, hq =>
      simp only [makeSnapshot, List.cons_append, List.nil_append, List.cons.injEq] at hq
      obtain ⟨hx, hy, -⟩ := hq
      subst hx; subst hy
      exact ⟨_, rfl, rfl⟩
    | x :: y :: z :: rest, _, hnf, hq =>
      simp only [makeSnapshot, List.cons_append, List.cons.injEq] at hq
      obtain ⟨hx, hy, hz, hr⟩ := hq
      obtain ⟨hrest, -⟩ := List.append_eq_nil.mp hr
      subst hx; subst hy; subst hz; subst hrest
      exact absurd rfl hnf
  · simp only [misOrderings, List.mem_cons, List.not_mem_nil, or_false] at hm
    rcases hm with rfl | rfl | rfl | rfl
    · exact ⟨_, rfl, rfl⟩
    · exact ⟨_, rfl, rfl⟩
    · exact ⟨_, rfl, rfl⟩
    · exact ⟨_, rfl, rfl⟩

theorem recoverFrom_rejects_bad_blobs_w :
    ∃ e, recoverFrom sampleState [JsonTok.jint 1] = .error e
      ∧ applySnapshotMsg sampleState [JsonTok.jint 1] 0 = .panicked e :=
  recoverFrom_rejects_bad_blobs sampleState sampleState [.jint 1] 0
    (Or.inl ⟨by decide, by decide, ⟨[.jint 0, .jmap [("a", "1")]], by decide⟩⟩)

/-- C5 counterexample: with sessionTimeout configured to 0 the startup
succeeds with the default timeout of 3600 seconds and the reaper started
(the claim says the reaper is disabled), and with sessionTimeout -1 the
startup also succeeds, with the reaper not started (the claim says
startup rejects it). -/
theorem sessionTimeout_zero_neg_cex :
    (configureKVServer 0 8080 100 0).toOption.map
        (fun c => (c.sessionTimeoutSecs, c.reaperStarted)) = some (3600, true)
    ∧ (configureKVServer 0 8080 100 (-1)).toOption.map
        (fun c => (c.sessionTimeoutSecs, c.reaperStarted)) = some (-1, false) := by
  decide

/-- C5 amended: a configured sessionTimeout equal to 0 selects the
default of 3600 seconds, so the session reaper runs; a configured
sessionTimeout less than 0 is accepted at startup and the reaper is not
started, so sessions never expire. -/
theorem sessionTimeout_config_amended (ci p m st : Int) (hp : 0 ≤ p) (hst : st < 0) :
    (configureKVServer ci p m 0).toOption.map
        (fun c => (c.sessionTimeoutSecs, c.reaperStarted)) = some (3600, true)
    ∧ (configureKVServer ci p m st).toOption.map
        (fun c => (c.sessionTimeoutSecs, c.reaperStarted)) = some (st, false) := by
  have hp2 : ¬(p < 0) := by omega
  have h1 : ¬(st ≥ 0) := by omega
  have h2 : ¬(st > 0) := by omega
  constructor
  · simp only [configureKVServer, hp2, if_false, Option.map_eq_some]
    simp
    exact ⟨_, rfl, rfl, rfl⟩
  · simp only [configureKVServer, hp2, if_false, Option.map_eq_some]
    simp [h1, h2]
    exact ⟨_, rfl, rfl, rfl⟩

theorem sessionTimeout_config_amended_w :
    (configureKVServer 0 1 2 0).toOption.map
        (fun c => (c.sessionTimeoutSecs, c.reaperStarted)) = some (3600, true)
    ∧ (configureKVServer 0 1 2 (-3)).toOption.map
        (fun c => (c.sessionTimeoutSecs, c.reaperStarted)) = some (-3, false) :=
  sessionTimeout_config_amended 0 1 2 (-3) (by decide) (by decide)

/-- C9: in a fully successful Get on the leader (valid session, matching
term, key present) the embedded event trace of the handler shows that the
read of kv.tab happens after the channel receive with zero net lock
acquisitions outstanding: the coordinator lock is not held at the read,
contrary to the specified read-under-the-apply-lock. -/
theorem get_reads_tab_without_lock :
    getEvents .GET true true true true true =
      [.lock, .unlock, .startCall, .lock, .unlock, .recvResult, .readTab, .reply .OK]
    ∧ (getEvents .GET true true true true true)[6]? = some .readTab
    ∧ lockBalance ((getEvents .GET true true true true true).take 6) = 0 := by
  decide

/-- C10: for Get and Update the rejection checks run in the order request
type, then leadership, then session: a request with an invalid session on
a non-leader returns WRONG_LEADER rather than INVALID_SESSION, an invalid
request type returns INVALID_REQUEST_TYPE even on a non-leader, and none
of these rejected requests is submitted to consensus. -/
theorem rejection_check_order (kv : KVState) (key value sessionId : String)
    (requestType : RequestType) (stateIsLeader : Bool) (ci ct : Int)
    (startIsLeader : Bool) (recv : ApplyResult) (now : Nat) :
    (requestType ≠ .GET →
      Get kv key sessionId requestType stateIsLeader ci ct startIsLeader recv now =
        { reply := { value := "", errCode := .INVALID_REQUEST_TYPE }, st := kv, submitted := false })
    ∧ (stateIsLeader = false →
      Get kv key sessionId .GET stateIsLeader ci ct startIsLeader recv now =
        { reply := { value := "", errCode := .WRONG_LEADER }, st := kv, submitted := false })
    ∧ (alookup kv.sessionMap sessionId = none → stateIsLeader = true →
      Get kv key sessionId .GET stateIsLeader ci ct startIsLeader recv now =
        { reply := { value := "", errCode := .INVALID_SESSION }, st := kv, submitted := false })
    ∧ ((requestType = .PUT ∨ requestType = .APPEND ∨ requestType = .DELETE) →
        stateIsLeader = false →
      Update kv key value sessionId requestType stateIsLeader ci ct startIsLeader recv now =
        { errCode := .WRONG_LEADER, st := kv, submitted := false })
    ∧ (requestType ≠ .PUT → requestType ≠ .APPEND → requestType ≠ .DELETE →
      Update kv key value sessionId requestType stateIsLeader ci ct startIsLeader recv now =
        { errCode := .INVALID_REQUEST_TYPE, st := kv, submitted := false })
    ∧ (alookup kv.sessionMap sessionId = none → stateIsLeader = true →
        (requestType = .PUT ∨ requestType = .APPEND ∨ requestType = .DELETE) →
      Update kv key value sessionId requestType stateIsLeader ci ct startIsLeader recv now =
        { errCode := .INVALID_SESSION, st := kv, submitted := false }) := by
  refine ⟨?_, ?_, ?_, ?_, ?_, ?_⟩
  · intro h
    have hb : (requestType != RequestType.GET) = true := by simpa using h
    simp [Get, hb]
  · intro h; subst h; simp [Get]
  · intro hs h; subst h; simp [Get, checkSession, hs]
  · intro hty h
    subst h
    rcases hty with rfl | rfl | rfl <;> simp [Update]
  · intro h1 h2 h3
    cases requestType with
    | PUT => exact absurd rfl h1
    | APPEND => exact absurd rfl h2
    | DELETE => exact absurd rfl h3
    | GET => simp [Update]
    | OPEN_SESSION => simp [Update]
  · intro hs h hty
    subst h
    rcases hty with rfl | rfl | rfl <;> simp [Update, checkSession, hs]

theorem rejection_check_order_w :
    Get sampleState "a" "s" .PUT false 1 1 true { term := 1, sessionId := "" } 0 =
      { reply := { value := "", errCode := .INVALID_REQUEST_TYPE }, st := sampleState, submitted := false }
    ∧ Get sampleState "a" "s" .GET false 1 1 true { term := 1, sessionId := "" } 0 =
      { reply := { value := "", errCode := .WRONG_LEADER }, st := sampleState, submitted := false }
    ∧ Get sampleState "a" "s" .GET true 1 1 true { term := 1, sessionId := "" } 0 =
      { reply := { value := "", errCode := .INVALID_SESSION }, st := sampleState, submitted := false }
    ∧ Update sampleState "a" "v" "s" .PUT false 1 1 true { term := 1, sessionId := "" } 0 =
      { errCode := .WRONG_LEADER, st := sampleState, submitted := false }
    ∧ Update sampleState "a" "v" "s" .GET true 1 1 true { term := 1, sessionId := "" } 0 =
      { errCode := .INVALID_REQUEST_TYPE, st := sampleState, submitted := false } :=
  ⟨(rejection_check_order sampleState "a" "v" "s" .PUT false 1 1 true
      { term := 1, sessionId := "" } 0).1 (by decide),
   (rejection_check_order sampleState "a" "v" "s" .GET false 1 1 true
      { term := 1, sessionId := "" } 0).2.1 rfl,
   (rejection_check_order sampleState "a" "v" "s" .GET true 1 1 true
      { term := 1, sessionId := "" } 0).2.2.1 (by decide) rfl,
   (rejection_check_order sampleState "a" "v" "s" .PUT false 1 1 true
      { term := 1, sessionId := "" } 0).2.2.2.1 (Or.inl rfl) rfl,
   (rejection_check_order sampleState "a" "v" "s" .GET true 1 1 true
      { term := 1, sessionId := "" } 0).2.2.2.2.1 (by decide) (by decide) (by decide)⟩

end KVService
